import Mathlib

/-!
Verification of the experiment-sweep orchestration pipeline in
`Analysis_Script.py` (IoT DAO replay-attack mitigation study).

The script drives an external ns-3 simulation: `execute_ns3` builds a shell
command from its parameters, runs the external process, and parses the first
rows of three CSV artifacts into a flat result record (converting the average
delay from seconds to milliseconds).  Three sweep generators
(`gather_baselines`, `gather_attack_variants`, `gather_threshold_tests`) call
it sequentially and accumulate labeled records.

The external world is modelled as an oracle `w : ℕ → String → SimRun` giving,
for each invocation index and command string, the process exit code and the
contents of the three result files (`none` = file missing or malformed,
`some rows` = the parsed data rows).  All Python floats that matter here are
terminating decimals, modelled as rationals.
-/

namespace AnalysisScript

/-- Decimal digits of the fractional part of a rational in `[0,1)`,
with fuel (all floats appearing in the script are terminating decimals). -/
def fracDigitsAux : ℕ → ℚ → List Char
  | 0, _ => []
  | fuel + 1, q =>
    if q = 0 then []
    else
      let d : ℤ := (q * 10).floor
      Char.ofNat (48 + d.toNat) :: fracDigitsAux fuel (q * 10 - (d : ℚ))

/-- Rendering of a nonnegative terminating-decimal rational the way Python's
f-string renders the corresponding float (e.g. `1.2`). -/
def floatStr (q : ℚ) : String :=
  let ip : ℤ := q.floor
  let fp : ℚ := q - (ip : ℚ)
  toString ip ++ "." ++ (if fp = 0 then "0" else String.mk (fracDigitsAux 17 fp))

/-- The invocation string built by `execute_ns3` (lines 36-48 of the script):
the attack branch passes `attackerPps`, `attackerPkt`, `threshold` and
`windowSec`; the no-attack branch passes neither. -/
def build_command (attack : Bool) (attack_rate limit node_count : ℤ)
    (win : ℚ) (duration : ℤ) : String :=
  if attack then
    "./ns3 run 'dioneighbour --attack=true --attackerPps=" ++ toString attack_rate
      ++ " --attackerPkt=120 --threshold=" ++ toString limit
      ++ " --windowSec=" ++ floatStr win
      ++ " --nNodes=" ++ toString node_count
      ++ " --area=60 --rateKbps=16 --simTime=" ++ toString duration ++ "'"
  else
    "./ns3 run 'dioneighbour --attack=false --nNodes=" ++ toString node_count
      ++ " --area=60 --rateKbps=16 --simTime=" ++ toString duration ++ "'"

/-- Boolean list-level test `p` starts `l`. -/
def isPrefixB {α : Type} [BEq α] : List α → List α → Bool
  | [], _ => true
  | _ :: _, [] => false
  | a :: as, b :: bs => a == b && isPrefixB as bs

/-- Boolean list-level test `p` occurs contiguously inside `l`. -/
def isInfixB {α : Type} [BEq α] (p : List α) : List α → Bool
  | [] => p.isEmpty
  | c :: t => isPrefixB p (c :: t) || isInfixB p t

/-- `containsSub s pat` holds when `pat` occurs as a contiguous substring
of `s` (the sense in which the spec says the invocation string
"contains" a parameter). -/
def containsSub (s pat : String) : Bool :=
  isInfixB pat.data s.data

/-- One invocation of the external process, as seen by the script: the exit
code and the contents of the three result files the process (over)writes.
Each artifact is `none` when the file is missing or malformed, and otherwise
the list of its parsed data rows (`run1_pdr.csv` rows are `(pdr, tx, rx)`,
`run1_delay.csv` rows are `avg_delay_s`, `run1_overhead.csv` rows are
`(control_tx, control_rx, control_dropped)`). -/
structure SimRun where
  returncode : ℤ
  pdrRows : Option (List (ℚ × ℚ × ℚ))
  delayRows : Option (List ℚ)
  overheadRows : Option (List (ℚ × ℚ × ℚ))
deriving DecidableEq

/-- The flat record of metrics returned by a successful `execute_ns3` call
(the Python dict of lines 61-69). -/
structure RunResult where
  pdr : ℚ
  tx : ℚ
  rx : ℚ
  delay_ms : ℚ
  ctrl_tx : ℚ
  ctrl_rx : ℚ
  ctrl_dropped : ℚ
deriving DecidableEq

/-- A `RunResult` as stored in a sweep table: the scenario label the sweep
code adds, plus the optional sweep-position annotations (`attack_pps` for
the rate sweep, `threshold` for the threshold sweep). -/
structure ScenarioRecord where
  scenario : String
  result : RunResult
  attack_pps : Option ℤ
  threshold : Option ℤ
deriving DecidableEq

/-- `execute_ns3` (lines 34-72): build the command, run the external process
(`env command`), fail on a non-zero exit code, otherwise read the first data
row of each of the three artifacts (`.iloc[0]`; a missing, malformed or empty
file raises and is caught, giving `none`).  The only unit conversion is
`avg_delay_s * 1000`. -/
def execute_ns3 (env : String → SimRun) (attack : Bool)
    (attack_rate limit node_count : ℤ) (win : ℚ) (duration : ℤ) :
    Option RunResult :=
  let command := build_command attack attack_rate limit node_count win duration
  let result := env command
  if result.returncode ≠ 0 then none
  else
    match result.pdrRows, result.delayRows, result.overheadRows with
    | some ((p, txv, rxv) :: _), some (d :: _), some ((ct, cr, cd) :: _) =>
        some { pdr := p, tx := txv, rx := rxv, delay_ms := d * 1000,
               ctrl_tx := ct, ctrl_rx := cr, ctrl_dropped := cd }
    | _, _, _ => none

/-- `gather_baselines` (lines 77-109): three fixed configurations in order —
no attack (`RPL`), attack with the threshold effectively unlimited
(`InsecRPL`), attack with the nominal threshold 25 (`SecRPL`).  A run that
returns `None` appends nothing.  `w i` is the external world at the `i`-th
invocation of this sweep. -/
def gather_baselines (w : ℕ → String → SimRun) : List ScenarioRecord :=
  (match execute_ns3 (w 0) false 700 25 25 (6/5) 120 with
   | some out => [{ scenario := "RPL", result := out,
                    attack_pps := none, threshold := none }]
   | none => []) ++
  (match execute_ns3 (w 1) true 700 999999999 25 (6/5) 120 with
   | some out => [{ scenario := "InsecRPL", result := out,
                    attack_pps := none, threshold := none }]
   | none => []) ++
  (match execute_ns3 (w 2) true 700 25 25 (6/5) 120 with
   | some out => [{ scenario := "SecRPL", result := out,
                    attack_pps := none, threshold := none }]
   | none => [])

/-- The fixed ascending attacker-rate sequence of `gather_attack_variants`
(line 120). -/
def attackRates : List ℤ := [150, 300, 500, 700, 900, 1100]

/-- One iteration of the rate loop (lines 123-138): for rate `r`, first the
insecure run (threshold 999999999, label `InsecRPL`), then the secure run
(threshold 25, label `SecRPL`), each annotated with `attack_pps = r`;
a failed run appends nothing.  `k` is the invocation index of the first of
the two runs. -/
def rateStep (w : ℕ → String → SimRun) (r : ℤ) (k : ℕ) : List ScenarioRecord :=
  (match execute_ns3 (w k) true r 999999999 25 (6/5) 120 with
   | some res => [{ scenario := "InsecRPL", result := res,
                    attack_pps := some r, threshold := none }]
   | none => []) ++
  (match execute_ns3 (w (k + 1)) true r 25 25 (6/5) 120 with
   | some res => [{ scenario := "SecRPL", result := res,
                    attack_pps := some r, threshold := none }]
   | none => [])

/-- The rate loop over the remaining rates, starting at invocation index
`k`; every iteration consumes exactly two invocations, whether or not they
succeed. -/
def rateLoop (w : ℕ → String → SimRun) : List ℤ → ℕ → List ScenarioRecord
  | [], _ => []
  | r :: rs, k => rateStep w r k ++ rateLoop w rs (k + 2)

/-- `gather_attack_variants` (lines 114-149): the rate loop, then one
attack-disabled reference run (the 13th invocation); on success its single
result is replicated under label `RPL` once per rate value (`ref.copy()`
with `attack_pps = r`), appended after the whole loop output. -/
def gather_attack_variants (w : ℕ → String → SimRun) : List ScenarioRecord :=
  rateLoop w attackRates 0 ++
  (match execute_ns3 (w (2 * attackRates.length)) false 700 25 25 (6/5) 120 with
   | some ref => attackRates.map fun r =>
       { scenario := "RPL", result := ref, attack_pps := some r, threshold := none }
   | none => [])

/-- The fixed ascending threshold sequence of `gather_threshold_tests`
(line 160). -/
def thresholdLimits : List ℤ := [5, 15, 25, 35, 50, 70]

/-- The threshold loop (lines 163-169): one attack-enabled run per limit at
the fixed rate 700, labeled `SecRPL` and annotated with `threshold = lim`;
a failed run appends nothing.  One invocation per limit. -/
def thresholdLoop (w : ℕ → String → SimRun) :
    List ℤ → ℕ → List ScenarioRecord
  | [], _ => []
  | lim :: ls, k =>
    (match execute_ns3 (w k) true 700 lim 25 (6/5) 120 with
     | some out => [{ scenario := "SecRPL", result := out,
                      attack_pps := none, threshold := some lim }]
     | none => []) ++ thresholdLoop w ls (k + 1)

/-- `gather_threshold_tests` (lines 154-172). -/
def gather_threshold_tests (w : ℕ → String → SimRun) : List ScenarioRecord :=
  thresholdLoop w thresholdLimits 0

/-- Path constants of lines 18-20 and 374. -/
def NS3_ROOT : String := "/home/chirag/acn_gowda/ns-3-dev-ecn"

def SCRATCH_DIR : String := NS3_ROOT ++ "/scratch"

def code_file : String := SCRATCH_DIR ++ "/dioneighbour.cc"

/-- Outcome of running the script end to end: either an environment error
(the module-level `exit(1)` of lines 24-29 or the early `return` of lines
375-377, with the reported message) or the three gathered tables. -/
inductive ScriptOutcome
  | envError (message : String)
  | completed (baseline rate thresh : List ScenarioRecord)
deriving DecidableEq

/-- The script's top-level control flow around the sweeps: the module-level
existence checks on `NS3_ROOT` and `SCRATCH_DIR` (lines 24-29), `main`'s
check for `dioneighbour.cc` (lines 374-377), then the three sweeps in order,
sharing one sequential stream of external invocations (3, then 13, then 6). -/
def runScript (pathExists : String → Bool) (w : ℕ → String → SimRun) :
    ScriptOutcome :=
  if pathExists NS3_ROOT = false then
    .envError ("ERROR: NS-3 directory not found at " ++ NS3_ROOT)
  else if pathExists SCRATCH_DIR = false then
    .envError ("ERROR: Scratch directory missing at " ++ SCRATCH_DIR)
  else if pathExists code_file = false then
    .envError ("Could not locate simulation file: " ++ code_file)
  else
    .completed (gather_baselines w)
      (gather_attack_variants fun i => w (3 + i))
      (gather_threshold_tests fun i => w (16 + i))

/-- An artifact with no readable first data row: the file is missing or
malformed (`none`) or has no data row at all (so `.iloc[0]` raises). -/
def noFirstRow {α : Type} : Option (List α) → Bool
  | none => true
  | some [] => true
  | some (_ :: _) => false

/-- The 12 run outcomes of the rate loop, in invocation order (for each rate,
the insecure run then the secure run). -/
def rateRunsLoop (w : ℕ → String → SimRun) :
    List ℤ → ℕ → List (Option RunResult)
  | [], _ => []
  | r :: rs, k =>
    execute_ns3 (w k) true r 999999999 25 (6/5) 120 ::
    execute_ns3 (w (k + 1)) true r 25 25 (6/5) 120 ::
    rateRunsLoop w rs (k + 2)

/-- A successful external run used to exercise the sweeps: exit code 0 and
one data row per artifact. -/
def okSim : SimRun :=
  { returncode := 0, pdrRows := some [(49/50, 600, 588)],
    delayRows := some [9/200], overheadRows := some [(80, 76, 4)] }

/-- A world in which every invocation succeeds. -/
def okWorld : ℕ → String → SimRun := fun _ _ => okSim

/-- The parsed record of `okSim`. -/
def okResult : RunResult :=
  { pdr := 49/50, tx := 600, rx := 588, delay_ms := 9/200 * 1000,
    ctrl_tx := 80, ctrl_rx := 76, ctrl_dropped := 4 }

/-- An external run whose process exits with code 1 (artifacts present but
never read, since the non-zero exit short-circuits the parse). -/
def failSim : SimRun :=
  { returncode := 1, pdrRows := some [(49/50, 600, 588)],
    delayRows := some [9/200], overheadRows := some [(80, 76, 4)] }

/-- A world in which only the very first invocation fails (non-zero exit). -/
def firstFailWorld : ℕ → String → SimRun := fun i _ =>
  if i = 0 then failSim else okSim

/-- A world in which only the very first invocation succeeds. -/
def onlyFirstWorld : ℕ → String → SimRun := fun i _ =>
  if i = 0 then okSim else failSim


theorem isPrefixB_iff {α : Type} [BEq α] [LawfulBEq α] (p l : List α) :
    isPrefixB p l = true ↔ ∃ t, p ++ t = l := by
  induction p generalizing l with
  | nil => simp [isPrefixB]
  | cons a as ih =>
    cases l with
    | nil => simp [isPrefixB]
    | cons b bs =>
      simp only [isPrefixB, Bool.and_eq_true, beq_iff_eq, ih,
        List.cons_append, List.cons.injEq]
      constructor
      · rintro ⟨rfl, t, rfl⟩
        exact ⟨t, rfl, rfl⟩
      · rintro ⟨t, rfl, rfl⟩
        exact ⟨rfl, t, rfl⟩

theorem isInfixB_iff {α : Type} [BEq α] [LawfulBEq α] (p l : List α) :
    isInfixB p l = true ↔ ∃ s t, s ++ p ++ t = l := by
  induction l with
  | nil =>
    simp only [isInfixB, List.isEmpty_iff]
    constructor
    · rintro rfl
      exact ⟨[], [], rfl⟩
    · rintro ⟨s, t, h⟩
      cases s <;> simp_all
  | cons b bs ih =>
    simp only [isInfixB, Bool.or_eq_true, isPrefixB_iff, ih]
    constructor
    · rintro (⟨t, ht⟩ | ⟨s, t, rfl⟩)
      · exact ⟨[], t, by simpa using ht⟩
      · exact ⟨b :: s, t, rfl⟩
    · rintro ⟨s, t, h⟩
      cases s with
      | nil => exact Or.inl ⟨t, by simpa using h⟩
      | cons c cs =>
        simp only [List.cons_append, List.cons.injEq] at h
        exact Or.inr ⟨cs, t, h.2⟩

theorem containsSub_of_split (s pre pat post : String)
    (h : s.data = pre.data ++ pat.data ++ post.data) :
    containsSub s pat = true := by
  rw [containsSub, isInfixB_iff]
  exact ⟨pre.data, post.data, h.symm⟩

theorem containsSub_of_eq (s pre pat post : String)
    (h : s = pre ++ pat ++ post) : containsSub s pat = true := by
  subst h
  rw [containsSub, isInfixB_iff]
  exact ⟨pre.data, post.data, by simp [String.data_append]⟩

theorem containsSub_tail (s t pat : String) (h : containsSub t pat = true) :
    containsSub (s ++ t) pat = true := by
  rw [containsSub, isInfixB_iff] at h ⊢
  obtain ⟨x, y, hxy⟩ := h
  exact ⟨s.data ++ x, y, by simp [String.data_append, ← hxy, List.append_assoc]⟩

theorem containsSub_head (pat t : String) :
    containsSub (pat ++ t) pat = true := by
  rw [containsSub, isInfixB_iff]
  exact ⟨[], t.data, by simp [String.data_append]⟩

/-- The attack-enabled invocation string, reassociated into one token per
`--key=value` parameter (used to locate each parameter inside the string). -/
theorem build_command_attack_nested (r l : ℤ) (w : ℚ) :
    build_command true r l 25 w 120 =
      "./ns3 run 'dioneighbour " ++ ("--attack=true" ++ (" " ++
      (("--attackerPps=" ++ toString r) ++ (" " ++
      ("--attackerPkt=120" ++ (" " ++
      (("--threshold=" ++ toString l) ++ (" " ++
      (("--windowSec=" ++ floatStr w) ++ (" " ++
      (("--nNodes=" ++ toString (25 : ℤ)) ++ (" " ++
      ("--area=60" ++ (" " ++
      ("--rateKbps=16" ++ (" " ++
      (("--simTime=" ++ toString (120 : ℤ)) ++ "'"))))))))))))))))) := by
  rw [build_command]
  simp only [if_true, String.append_assoc]
  rw [show ("./ns3 run 'dioneighbour --attack=true --attackerPps=" : String)
      = "./ns3 run 'dioneighbour " ++ ("--attack=true" ++ (" " ++ "--attackerPps="))
      from rfl,
    show (" --attackerPkt=120 --threshold=" : String)
      = " " ++ ("--attackerPkt=120" ++ (" " ++ "--threshold=")) from rfl,
    show (" --windowSec=" : String) = " " ++ "--windowSec=" from rfl,
    show (" --nNodes=" : String) = " " ++ "--nNodes=" from rfl,
    show (" --area=60 --rateKbps=16 --simTime=" : String)
      = " " ++ ("--area=60" ++ (" " ++ ("--rateKbps=16" ++ (" " ++ "--simTime="))))
      from rfl]
  simp only [String.append_assoc]

end AnalysisScript

namespace AnalysisScript

/-- C1: for every invocation of `execute_ns3` with the attack flag disabled,
the built invocation string contains none of `attackerPps`, `attackerPkt`,
`threshold` or `windowSec`, regardless of the values supplied for
`attack_rate`, `limit` or `win` (node count and duration are the fixed values
used by every call site). -/
theorem attack_disabled_command_omits_attack_params
    (attack_rate limit : ℤ) (win : ℚ) :
    containsSub (build_command false attack_rate limit 25 win 120)
        "attackerPps" = false ∧
    containsSub (build_command false attack_rate limit 25 win 120)
        "attackerPkt" = false ∧
    containsSub (build_command false attack_rate limit 25 win 120)
        "threshold" = false ∧
    containsSub (build_command false attack_rate limit 25 win 120)
        "windowSec" = false :=
  ⟨rfl, rfl, rfl, rfl⟩

/-- C2: for every invocation of `execute_ns3` with the attack flag enabled,
the built invocation string contains `--attackerPps=` with exactly the
supplied attack rate, `--attackerPkt=120`, `--threshold=` with exactly the
supplied limit, and `--windowSec=` with exactly the supplied window, as well
as the `nNodes`, `area`, `rateKbps` and `simTime` parameters. -/
theorem attack_enabled_command_contains_attack_params
    (attack_rate limit : ℤ) (win : ℚ) :
    containsSub (build_command true attack_rate limit 25 win 120)
        ("--attackerPps=" ++ toString attack_rate) = true ∧
    containsSub (build_command true attack_rate limit 25 win 120)
        "--attackerPkt=120" = true ∧
    containsSub (build_command true attack_rate limit 25 win 120)
        ("--threshold=" ++ toString limit) = true ∧
    containsSub (build_command true attack_rate limit 25 win 120)
        ("--windowSec=" ++ floatStr win) = true ∧
    containsSub (build_command true attack_rate limit 25 win 120)
        "--nNodes=25" = true ∧
    containsSub (build_command true attack_rate limit 25 win 120)
        "--area=60" = true ∧
    containsSub (build_command true attack_rate limit 25 win 120)
        "--rateKbps=16" = true ∧
    containsSub (build_command true attack_rate limit 25 win 120)
        "--simTime=120" = true := by
  rw [build_command_attack_nested]
  refine ⟨?_, ?_, ?_, ?_, ?_, ?_, ?_, ?_⟩
  · exact containsSub_tail _ _ _ (containsSub_tail _ _ _ (containsSub_tail _ _ _
      (containsSub_head _ _)))
  · exact containsSub_tail _ _ _ (containsSub_tail _ _ _ (containsSub_tail _ _ _
      (containsSub_tail _ _ _ (containsSub_tail _ _ _ (containsSub_head _ _)))))
  · exact containsSub_tail _ _ _ (containsSub_tail _ _ _ (containsSub_tail _ _ _
      (containsSub_tail _ _ _ (containsSub_tail _ _ _ (containsSub_tail _ _ _
      (containsSub_tail _ _ _ (containsSub_head _ _)))))))
  · exact containsSub_tail _ _ _ (containsSub_tail _ _ _ (containsSub_tail _ _ _
      (containsSub_tail _ _ _ (containsSub_tail _ _ _ (containsSub_tail _ _ _
      (containsSub_tail _ _ _ (containsSub_tail _ _ _ (containsSub_tail _ _ _
      (containsSub_head _ _)))))))))
  · exact containsSub_tail _ _ _ (containsSub_tail _ _ _ (containsSub_tail _ _ _
      (containsSub_tail _ _ _ (containsSub_tail _ _ _ (containsSub_tail _ _ _
      (containsSub_tail _ _ _ (containsSub_tail _ _ _ (containsSub_tail _ _ _
      (containsSub_tail _ _ _ (containsSub_tail _ _ _ (containsSub_head _ _)))))))))))
  · exact containsSub_tail _ _ _ (containsSub_tail _ _ _ (containsSub_tail _ _ _
      (containsSub_tail _ _ _ (containsSub_tail _ _ _ (containsSub_tail _ _ _
      (containsSub_tail _ _ _ (containsSub_tail _ _ _ (containsSub_tail _ _ _
      (containsSub_tail _ _ _ (containsSub_tail _ _ _ (containsSub_tail _ _ _
      (containsSub_tail _ _ _ (containsSub_head _ _)))))))))))))
  · exact containsSub_tail _ _ _ (containsSub_tail _ _ _ (containsSub_tail _ _ _
      (containsSub_tail _ _ _ (containsSub_tail _ _ _ (containsSub_tail _ _ _
      (containsSub_tail _ _ _ (containsSub_tail _ _ _ (containsSub_tail _ _ _
      (containsSub_tail _ _ _ (containsSub_tail _ _ _ (containsSub_tail _ _ _
      (containsSub_tail _ _ _ (containsSub_tail _ _ _ (containsSub_tail _ _ _
      (containsSub_head _ _)))))))))))))))
  · exact containsSub_tail _ _ _ (containsSub_tail _ _ _ (containsSub_tail _ _ _
      (containsSub_tail _ _ _ (containsSub_tail _ _ _ (containsSub_tail _ _ _
      (containsSub_tail _ _ _ (containsSub_tail _ _ _ (containsSub_tail _ _ _
      (containsSub_tail _ _ _ (containsSub_tail _ _ _ (containsSub_tail _ _ _
      (containsSub_tail _ _ _ (containsSub_tail _ _ _ (containsSub_tail _ _ _
      (containsSub_tail _ _ _ (containsSub_tail _ _ _ (containsSub_head _ _)))))))))))))))))

/-- A run whose external process failed, or whose artifacts have no readable
first row, parses to `None`. -/
theorem execute_ns3_failure (env : String → SimRun) (a : Bool)
    (r l n : ℤ) (wq : ℚ) (dur : ℤ)
    (h : (env (build_command a r l n wq dur)).returncode ≠ 0 ∨
         noFirstRow (env (build_command a r l n wq dur)).pdrRows = true ∨
         noFirstRow (env (build_command a r l n wq dur)).delayRows = true ∨
         noFirstRow (env (build_command a r l n wq dur)).overheadRows = true) :
    execute_ns3 env a r l n wq dur = none := by
  rcases hs : env (build_command a r l n wq dur) with ⟨rc, pdrO, delO, ovO⟩
  simp only [execute_ns3, hs] at h ⊢
  rcases pdrO with _ | (_ | ⟨⟨p, txv, rxv⟩, rest1⟩) <;>
    rcases delO with _ | (_ | ⟨d, rest2⟩) <;>
      rcases ovO with _ | (_ | ⟨⟨ct, cr, cd⟩, rest3⟩) <;>
        simp_all [noFirstRow]

theorem rateLoop_length (w : ℕ → String → SimRun) (rs : List ℤ) (k : ℕ) :
    (rateLoop w rs k).length =
      (rateRunsLoop w rs k).countP Option.isSome := by
  induction rs generalizing k with
  | nil => simp [rateLoop, rateRunsLoop]
  | cons r rs ih =>
    rw [rateLoop, rateRunsLoop]
    cases h1 : execute_ns3 (w k) true r 999999999 25 (6/5) 120 <;>
      cases h2 : execute_ns3 (w (k + 1)) true r 25 25 (6/5) 120 <;>
        simp [rateStep, h1, h2, ih, List.countP_cons]

theorem rateRunsLoop_length (w : ℕ → String → SimRun) (rs : List ℤ) (k : ℕ) :
    (rateRunsLoop w rs k).length = 2 * rs.length := by
  induction rs generalizing k with
  | nil => simp [rateRunsLoop]
  | cons r rs ih =>
    simp only [rateRunsLoop, List.length_cons, ih, List.length_cons]
    omega

theorem rateLoop_length_le (w : ℕ → String → SimRun) (rs : List ℤ) (k : ℕ) :
    (rateLoop w rs k).length ≤ 2 * rs.length := by
  rw [rateLoop_length, ← rateRunsLoop_length w rs k]
  exact List.countP_le_length _

theorem rateStep_filter_rpl (w : ℕ → String → SimRun) (r : ℤ) (k : ℕ) :
    (rateStep w r k).filter (fun sr => sr.scenario == "RPL") = [] := by
  rw [rateStep, List.filter_append]
  cases h1 : execute_ns3 (w k) true r 999999999 25 (6/5) 120 <;>
    cases h2 : execute_ns3 (w (k + 1)) true r 25 25 (6/5) 120 <;>
      simp [List.filter_cons,
        show (("InsecRPL" : String) == "RPL") = false from by decide,
        show (("SecRPL" : String) == "RPL") = false from by decide]

theorem rateLoop_filter_rpl (w : ℕ → String → SimRun) (rs : List ℤ) (k : ℕ) :
    (rateLoop w rs k).filter (fun sr => sr.scenario == "RPL") = [] := by
  induction rs generalizing k with
  | nil => simp [rateLoop]
  | cons r rs ih =>
    rw [rateLoop, List.filter_append, rateStep_filter_rpl, ih]
    rfl

theorem rateStep_filter_not_rpl (w : ℕ → String → SimRun) (r : ℤ) (k : ℕ) :
    (rateStep w r k).filter (fun sr => !(sr.scenario == "RPL")) =
      rateStep w r k := by
  rw [rateStep, List.filter_append]
  cases h1 : execute_ns3 (w k) true r 999999999 25 (6/5) 120 <;>
    cases h2 : execute_ns3 (w (k + 1)) true r 25 25 (6/5) 120 <;>
      simp [List.filter_cons,
        show (("InsecRPL" : String) == "RPL") = false from by decide,
        show (("SecRPL" : String) == "RPL") = false from by decide]

theorem rateLoop_filter_not_rpl (w : ℕ → String → SimRun) (rs : List ℤ)
    (k : ℕ) :
    (rateLoop w rs k).filter (fun sr => !(sr.scenario == "RPL")) =
      rateLoop w rs k := by
  induction rs generalizing k with
  | nil => simp [rateLoop]
  | cons r rs ih =>
    rw [rateLoop, List.filter_append, rateStep_filter_not_rpl, ih]

theorem rateStep_filter_insec_le (w : ℕ → String → SimRun) (r : ℤ) (k : ℕ) :
    ((rateStep w r k).filter
      (fun sr => sr.scenario == "InsecRPL")).length ≤ 1 := by
  rw [rateStep, List.filter_append]
  cases h1 : execute_ns3 (w k) true r 999999999 25 (6/5) 120 <;>
    cases h2 : execute_ns3 (w (k + 1)) true r 25 25 (6/5) 120 <;>
      simp [List.filter_cons,
        show (("SecRPL" : String) == "InsecRPL") = false from by decide]

theorem rateLoop_filter_insec_le (w : ℕ → String → SimRun) (rs : List ℤ)
    (k : ℕ) :
    ((rateLoop w rs k).filter
      (fun sr => sr.scenario == "InsecRPL")).length ≤ rs.length := by
  induction rs generalizing k with
  | nil => simp [rateLoop]
  | cons r rs ih =>
    rw [rateLoop, List.filter_append, List.length_append]
    have h1 := rateStep_filter_insec_le w r k
    have h2 := ih (k + 2)
    simp only [List.length_cons]
    omega

theorem rateStep_filter_sec_le (w : ℕ → String → SimRun) (r : ℤ) (k : ℕ) :
    ((rateStep w r k).filter
      (fun sr => sr.scenario == "SecRPL")).length ≤ 1 := by
  rw [rateStep, List.filter_append]
  cases h1 : execute_ns3 (w k) true r 999999999 25 (6/5) 120 <;>
    cases h2 : execute_ns3 (w (k + 1)) true r 25 25 (6/5) 120 <;>
      simp [List.filter_cons,
        show (("InsecRPL" : String) == "SecRPL") = false from by decide]

theorem rateLoop_filter_sec_le (w : ℕ → String → SimRun) (rs : List ℤ)
    (k : ℕ) :
    ((rateLoop w rs k).filter
      (fun sr => sr.scenario == "SecRPL")).length ≤ rs.length := by
  induction rs generalizing k with
  | nil => simp [rateLoop]
  | cons r rs ih =>
    rw [rateLoop, List.filter_append, List.length_append]
    have h1 := rateStep_filter_sec_le w r k
    have h2 := ih (k + 2)
    simp only [List.length_cons]
    omega

theorem isInfixB_of_eq_append {α : Type} [BEq α] [LawfulBEq α]
    (l X p Y : List α) (h : l = X ++ (p ++ Y)) : isInfixB p l = true := by
  rw [isInfixB_iff]
  exact ⟨X, Y, by rw [h]; simp [List.append_assoc]⟩

theorem rateLoop_adjacent (w : ℕ → String → SimRun) (rs : List ℤ)
    (i k : ℕ) (hi : i < rs.length) (resI resS : RunResult)
    (hI : execute_ns3 (w (k + 2 * i)) true (rs.get ⟨i, hi⟩) 999999999 25
      (6/5) 120 = some resI)
    (hS : execute_ns3 (w (k + 2 * i + 1)) true (rs.get ⟨i, hi⟩) 25 25
      (6/5) 120 = some resS) :
    ∃ X Y, rateLoop w rs k =
      X ++ ([{ scenario := "InsecRPL", result := resI,
               attack_pps := some (rs.get ⟨i, hi⟩), threshold := none },
             { scenario := "SecRPL", result := resS,
               attack_pps := some (rs.get ⟨i, hi⟩), threshold := none }] ++ Y) := by
  induction rs generalizing i k with
  | nil => exact absurd hi (by simp)
  | cons r rs ih =>
    cases i with
    | zero =>
      refine ⟨[], rateLoop w rs (k + 2), ?_⟩
      have hI' : execute_ns3 (w k) true r 999999999 25 (6/5) 120 =
          some resI := by simpa using hI
      have hS' : execute_ns3 (w (k + 1)) true r 25 25 (6/5) 120 =
          some resS := by simpa using hS
      rw [rateLoop, rateStep, hI', hS']
      simp
    | succ j =>
      have hj : j < rs.length := by simpa using hi
      rw [show k + 2 * (j + 1) = k + 2 + 2 * j from by ring] at hI hS
      obtain ⟨X, Y, hXY⟩ := ih j (k + 2) hj hI hS
      refine ⟨rateStep w r k ++ X, Y, ?_⟩
      rw [rateLoop, hXY, List.append_assoc]
      rfl

theorem thresholdLoop_threshold_sublist (w : ℕ → String → SimRun)
    (ls : List ℤ) (k : ℕ) :
    List.Sublist ((thresholdLoop w ls k).map fun sr => sr.threshold)
      (ls.map some) := by
  induction ls generalizing k with
  | nil => simp [thresholdLoop]
  | cons lim ls ih =>
    rw [thresholdLoop]
    cases h : execute_ns3 (w k) true 700 lim 25 (6/5) 120 with
    | none =>
      simp only [List.nil_append, List.map_cons]
      exact List.Sublist.cons _ (ih (k + 1))
    | some out =>
      simp only [List.singleton_append, List.map_cons]
      exact List.Sublist.cons₂ _ (ih (k + 1))

theorem thresholdLoop_mem (w : ℕ → String → SimRun) (ls : List ℤ) (k : ℕ) :
    ∀ sr ∈ thresholdLoop w ls k,
      sr.scenario = "SecRPL" ∧ sr.attack_pps = none ∧
      ∃ j lim, sr.threshold = some lim ∧
        execute_ns3 (w j) true 700 lim 25 (6/5) 120 = some sr.result := by
  induction ls generalizing k with
  | nil => simp [thresholdLoop]
  | cons lim ls ih =>
    intro sr hsr
    rw [thresholdLoop] at hsr
    rcases List.mem_append.1 hsr with h | h
    · revert h
      cases hx : execute_ns3 (w k) true 700 lim 25 (6/5) 120 with
      | none => intro h; simp at h
      | some out =>
        intro h
        simp only [List.mem_singleton] at h
        subst h
        exact ⟨rfl, rfl, k, lim, rfl, hx⟩
    · exact ih (k + 1) sr h

end AnalysisScript

namespace AnalysisScript

/-- C3: a failed invocation — non-zero exit, or a missing/malformed artifact,
or an artifact with no parseable first row — yields `None` (a value, not an
exception), and the attack-rate sweep's table length equals the number of
successful invocations: a failure appends no record and no placeholder, and
subsequent configurations still contribute their records. -/
theorem failed_invocation_skipped :
    (∀ (env : String → SimRun) (a : Bool) (r l n : ℤ) (wq : ℚ) (dur : ℤ),
      ((env (build_command a r l n wq dur)).returncode ≠ 0 ∨
       noFirstRow (env (build_command a r l n wq dur)).pdrRows = true ∨
       noFirstRow (env (build_command a r l n wq dur)).delayRows = true ∨
       noFirstRow (env (build_command a r l n wq dur)).overheadRows = true) →
      execute_ns3 env a r l n wq dur = none) ∧
    (∀ w : ℕ → String → SimRun,
      (gather_attack_variants w).length =
        (rateRunsLoop w attackRates 0).countP Option.isSome +
        (if (execute_ns3 (w (2 * attackRates.length)) false 700 25 25
              (6/5) 120).isSome
         then attackRates.length else 0)) := by
  refine ⟨execute_ns3_failure, fun w => ?_⟩
  rw [gather_attack_variants, List.length_append, rateLoop_length]
  cases href : execute_ns3 (w (2 * attackRates.length)) false 700 25 25
      (6/5) 120 <;> simp [href]

/-- Witness for C3: with a non-zero exit code the executor returns `None`,
and in a world where only the first of the 19 invocations fails the
attack-rate sweep holds 11 + 6 records. -/
theorem failed_invocation_skipped_witness :
    execute_ns3 (firstFailWorld 0) true 700 999999999 25 (6/5) 120 = none ∧
    (gather_attack_variants firstFailWorld).length = 17 :=
  ⟨failed_invocation_skipped.1 (firstFailWorld 0) true 700 999999999 25
      (6/5) 120 (Or.inl (by decide)),
   (failed_invocation_skipped.2 firstFailWorld).trans (by decide)⟩

/-- C4: when all three baseline runs succeed, `gather_baselines` is exactly
the three records of its three fixed configurations — no attack, attack with
the threshold effectively unlimited (999999999), attack with the nominal
threshold 25 — labeled `RPL`, `InsecRPL`, `SecRPL` in that order. -/
theorem baseline_sweep_three_records (w : ℕ → String → SimRun)
    (r0 r1 r2 : RunResult)
    (h0 : execute_ns3 (w 0) false 700 25 25 (6/5) 120 = some r0)
    (h1 : execute_ns3 (w 1) true 700 999999999 25 (6/5) 120 = some r1)
    (h2 : execute_ns3 (w 2) true 700 25 25 (6/5) 120 = some r2) :
    gather_baselines w =
      [{ scenario := "RPL", result := r0, attack_pps := none, threshold := none },
       { scenario := "InsecRPL", result := r1, attack_pps := none, threshold := none },
       { scenario := "SecRPL", result := r2, attack_pps := none, threshold := none }] ∧
    (gather_baselines w).length = 3 ∧
    (gather_baselines w).map (fun sr => sr.scenario) =
      ["RPL", "InsecRPL", "SecRPL"] := by
  have h : gather_baselines w =
      [{ scenario := "RPL", result := r0, attack_pps := none, threshold := none },
       { scenario := "InsecRPL", result := r1, attack_pps := none, threshold := none },
       { scenario := "SecRPL", result := r2, attack_pps := none, threshold := none }] := by
    rw [gather_baselines, h0, h1, h2]; rfl
  exact ⟨h, by rw [h]; rfl, by rw [h]; rfl⟩

/-- Witness for C4: in the all-success world the baseline table is the three
labeled records. -/
theorem baseline_sweep_three_records_witness :
    gather_baselines okWorld =
      [{ scenario := "RPL", result := okResult, attack_pps := none, threshold := none },
       { scenario := "InsecRPL", result := okResult, attack_pps := none, threshold := none },
       { scenario := "SecRPL", result := okResult, attack_pps := none, threshold := none }] :=
  (baseline_sweep_three_records okWorld okResult okResult okResult
    rfl rfl rfl).1

/-- C9: the baseline sweep is a pure function of the external responses to
its three invocations — two campaigns whose (stubbed) executors answer those
invocations identically produce identical tables; the sweep adds no
randomness, reordering, or state of its own. -/
theorem baseline_sweep_deterministic (w w' : ℕ → String → SimRun)
    (h0 : w 0 = w' 0) (h1 : w 1 = w' 1) (h2 : w 2 = w' 2) :
    gather_baselines w = gather_baselines w' := by
  rw [gather_baselines, gather_baselines, h0, h1, h2]

/-- Witness for C9. -/
theorem baseline_sweep_deterministic_witness :
    gather_baselines okWorld = gather_baselines (fun _ _ => okSim) :=
  baseline_sweep_deterministic okWorld (fun _ _ => okSim) rfl rfl rfl

/-- C7: if the simulator root directory, its scratch subdirectory, or the
simulation source file `dioneighbour.cc` is absent, the script stops with the
corresponding reported error and never reaches any sweep (no external
invocation is attempted). -/
theorem missing_environment_refuses (pe : String → Bool)
    (w : ℕ → String → SimRun) :
    (pe NS3_ROOT = false →
      runScript pe w =
        .envError ("ERROR: NS-3 directory not found at " ++ NS3_ROOT)) ∧
    (pe NS3_ROOT = true → pe SCRATCH_DIR = false →
      runScript pe w =
        .envError ("ERROR: Scratch directory missing at " ++ SCRATCH_DIR)) ∧
    (pe NS3_ROOT = true → pe SCRATCH_DIR = true → pe code_file = false →
      runScript pe w =
        .envError ("Could not locate simulation file: " ++ code_file)) ∧
    ((pe NS3_ROOT = false ∨ pe SCRATCH_DIR = false ∨ pe code_file = false) →
      ∀ b r t, runScript pe w ≠ .completed b r t) := by
  refine ⟨fun h => by simp [runScript, h],
          fun h1 h2 => by simp [runScript, h1, h2],
          fun h1 h2 h3 => by simp [runScript, h1, h2, h3],
          fun h b r t => ?_⟩
  rcases h with h | h | h <;>
    by_cases h1 : pe NS3_ROOT = false <;>
      by_cases h2 : pe SCRATCH_DIR = false <;>
        by_cases h3 : pe code_file = false <;>
          simp_all [runScript]

/-- Witness for C7: with every path absent the script reports the missing
root directory and runs nothing. -/
theorem missing_environment_refuses_witness :
    runScript (fun _ => false) okWorld =
      .envError ("ERROR: NS-3 directory not found at " ++ NS3_ROOT) :=
  (missing_environment_refuses (fun _ => false) okWorld).1 rfl

/-- C8: the parser consumes only the first data row of each artifact
(later rows are ignored), applies exactly one unit conversion — the raw
average delay times 1000 — and takes the six other numeric fields unchanged
from the first rows of their artifacts. -/
theorem parser_first_row_and_delay_conversion (env : String → SimRun)
    (a : Bool) (r l n : ℤ) (wq : ℚ) (dur : ℤ)
    (p txv rxv d ct cr cd : ℚ)
    (rest1 : List (ℚ × ℚ × ℚ)) (rest2 : List ℚ) (rest3 : List (ℚ × ℚ × ℚ))
    (hrc : (env (build_command a r l n wq dur)).returncode = 0)
    (hp : (env (build_command a r l n wq dur)).pdrRows =
      some ((p, txv, rxv) :: rest1))
    (hd : (env (build_command a r l n wq dur)).delayRows = some (d :: rest2))
    (ho : (env (build_command a r l n wq dur)).overheadRows =
      some ((ct, cr, cd) :: rest3)) :
    execute_ns3 env a r l n wq dur =
      some { pdr := p, tx := txv, rx := rxv, delay_ms := d * 1000,
             ctrl_tx := ct, ctrl_rx := cr, ctrl_dropped := cd } := by
  simp [execute_ns3, hrc, hp, ho, hd]

/-- Witness for C8: a delay artifact whose first row is `avg_delay_s = 0.045`
(with a second row that is ignored) yields a record whose delay field is
exactly `45` milliseconds. -/
theorem parser_first_row_and_delay_conversion_witness :
    execute_ns3
      (fun _ => { returncode := 0, pdrRows := some [(49/50, 600, 588)],
                  delayRows := some [9/200, 7], overheadRows := some [(80, 76, 4)] })
      false 700 25 25 (6/5) 120 =
      some { pdr := 49/50, tx := 600, rx := 588, delay_ms := 45,
             ctrl_tx := 80, ctrl_rx := 76, ctrl_dropped := 4 } := by
  rw [parser_first_row_and_delay_conversion
      (fun _ => { returncode := 0, pdrRows := some [(49/50, 600, 588)],
                  delayRows := some [9/200, 7], overheadRows := some [(80, 76, 4)] })
      false 700 25 25 (6/5) 120 (49/50) 600 588 (9/200) 80 76 4 [] [7] []
      rfl rfl rfl rfl]
  norm_num

/-- C5: the attack-intensity sweep over the 6 rates yields at most 18
records — at most 6 `InsecRPL`, at most 6 `SecRPL` — and the `RPL`-labeled
subset is either empty (the single reference run failed) or exactly the six
copies of the one attack-disabled reference run (the 13th invocation),
identical in all numeric fields and annotated with the six distinct rates. -/
theorem attack_sweep_replicated_reference (w : ℕ → String → SimRun) :
    (gather_attack_variants w).length ≤ 18 ∧
    ((gather_attack_variants w).filter
      fun sr => sr.scenario == "InsecRPL").length ≤ 6 ∧
    ((gather_attack_variants w).filter
      fun sr => sr.scenario == "SecRPL").length ≤ 6 ∧
    (∀ res : RunResult,
      execute_ns3 (w (2 * attackRates.length)) false 700 25 25 (6/5) 120 =
        some res →
      ((gather_attack_variants w).filter fun sr => sr.scenario == "RPL") =
        (attackRates.map fun r =>
          { scenario := "RPL", result := res,
            attack_pps := some r, threshold := none }) ∧
      (((gather_attack_variants w).filter fun sr => sr.scenario == "RPL").map
          fun sr => sr.result) = List.replicate 6 res ∧
      (((gather_attack_variants w).filter fun sr => sr.scenario == "RPL").map
          fun sr => sr.attack_pps) = attackRates.map some) ∧
    (execute_ns3 (w (2 * attackRates.length)) false 700 25 25 (6/5) 120 =
        none →
      ((gather_attack_variants w).filter fun sr => sr.scenario == "RPL") =
        []) := by
  refine ⟨?_, ?_, ?_, fun res href => ?_, fun href => ?_⟩
  · have h1 := rateLoop_length_le w attackRates 0
    rw [gather_attack_variants, List.length_append]
    cases href : execute_ns3 (w (2 * attackRates.length)) false 700 25 25
        (6/5) 120 <;>
      simp [attackRates] at h1 ⊢ <;> omega
  · have h1 := rateLoop_filter_insec_le w attackRates 0
    rw [gather_attack_variants, List.filter_append, List.length_append]
    cases href : execute_ns3 (w (2 * attackRates.length)) false 700 25 25
        (6/5) 120 <;>
      simp [attackRates, List.filter_cons,
        show (("RPL" : String) == "InsecRPL") = false from by decide]
        at h1 ⊢ <;> omega
  · have h1 := rateLoop_filter_sec_le w attackRates 0
    rw [gather_attack_variants, List.filter_append, List.length_append]
    cases href : execute_ns3 (w (2 * attackRates.length)) false 700 25 25
        (6/5) 120 <;>
      simp [attackRates, List.filter_cons,
        show (("RPL" : String) == "SecRPL") = false from by decide]
        at h1 ⊢ <;> omega
  · rw [gather_attack_variants, List.filter_append, rateLoop_filter_rpl, href]
    exact ⟨rfl, rfl, rfl⟩
  · rw [gather_attack_variants, List.filter_append, rateLoop_filter_rpl, href]
    rfl

/-- Witness for C5: in the all-success world the `RPL`-labeled records are
exactly the single reference result replicated across the six rates. -/
theorem attack_sweep_replicated_reference_witness :
    ((gather_attack_variants okWorld).filter fun sr => sr.scenario == "RPL") =
      (attackRates.map fun r =>
        { scenario := "RPL", result := okResult,
          attack_pps := some r, threshold := none }) :=
  ((attack_sweep_replicated_reference okWorld).2.2.2.1 okResult rfl).1

/-- C6: the threshold sweep yields at most 6 records; their threshold
annotations form a subsequence of the fixed strictly ascending limit list
(so at most one record per threshold value, in ascending order, with no
duplicate annotation), and every record is labeled `SecRPL`, carries no
attack-rate annotation, and holds the parsed result of an attack-enabled run
at the fixed intensity 700 with its own annotated threshold. -/
theorem threshold_sweep_secrpl_only (w : ℕ → String → SimRun) :
    (gather_threshold_tests w).length ≤ 6 ∧
    List.Sublist ((gather_threshold_tests w).map fun sr => sr.threshold)
      (thresholdLimits.map some) ∧
    ((gather_threshold_tests w).map fun sr => sr.threshold).Nodup ∧
    List.Chain' (fun a b : ℤ => a < b) thresholdLimits ∧
    ∀ sr ∈ gather_threshold_tests w,
      sr.scenario = "SecRPL" ∧ sr.attack_pps = none ∧
      ∃ j lim, sr.threshold = some lim ∧
        execute_ns3 (w j) true 700 lim 25 (6/5) 120 = some sr.result := by
  have hsub := thresholdLoop_threshold_sublist w thresholdLimits 0
  refine ⟨?_, hsub, hsub.nodup (by decide),
    by norm_num [thresholdLimits, List.chain'_cons], thresholdLoop_mem w thresholdLimits 0⟩
  have h := hsub.length_le
  simpa [thresholdLimits] using h

/-- Witness for C6: with only the first invocation succeeding the sweep has
at most 6 records, and its sole record is labeled `SecRPL`. -/
theorem threshold_sweep_secrpl_only_witness :
    (gather_threshold_tests onlyFirstWorld).length ≤ 6 ∧
    ({ scenario := "SecRPL", result := okResult, attack_pps := none,
       threshold := some (5 : ℤ) } : ScenarioRecord).scenario = "SecRPL" := by
  refine ⟨(threshold_sweep_secrpl_only onlyFirstWorld).1, ?_⟩
  have hmem : ({ scenario := "SecRPL", result := okResult, attack_pps := none,
                 threshold := some (5 : ℤ) } : ScenarioRecord) ∈
      gather_threshold_tests onlyFirstWorld := by
    have h : gather_threshold_tests onlyFirstWorld =
        [{ scenario := "SecRPL", result := okResult, attack_pps := none,
           threshold := some (5 : ℤ) }] := rfl
    rw [h]
    exact List.mem_singleton_self _
  exact ((threshold_sweep_secrpl_only onlyFirstWorld).2.2.2.2 _ hmem).1

/-- C10: in the attack-intensity sweep's table, all `RPL`-labeled reference
records sit together at the end (the table is its non-`RPL` part followed by
its `RPL` part, the latter annotated with the rates in their ascending
declaration order), and for each rate whose two runs both succeed, the
`InsecRPL` record is immediately followed by the `SecRPL` record for the
same rate. -/
theorem attack_sweep_ordering (w : ℕ → String → SimRun) :
    gather_attack_variants w =
      ((gather_attack_variants w).filter fun sr => !(sr.scenario == "RPL")) ++
      ((gather_attack_variants w).filter fun sr => sr.scenario == "RPL") ∧
    List.Chain' (fun a b : ℤ => a < b) attackRates ∧
    (((gather_attack_variants w).filter fun sr => sr.scenario == "RPL") = [] ∨
      (((gather_attack_variants w).filter fun sr => sr.scenario == "RPL").map
        fun sr => sr.attack_pps) = attackRates.map some) ∧
    ∀ (i : ℕ) (hi : i < attackRates.length) (resI resS : RunResult),
      execute_ns3 (w (2 * i)) true (attackRates.get ⟨i, hi⟩) 999999999 25
        (6/5) 120 = some resI →
      execute_ns3 (w (2 * i + 1)) true (attackRates.get ⟨i, hi⟩) 25 25
        (6/5) 120 = some resS →
      isInfixB
        [{ scenario := "InsecRPL", result := resI,
           attack_pps := some (attackRates.get ⟨i, hi⟩), threshold := none },
         { scenario := "SecRPL", result := resS,
           attack_pps := some (attackRates.get ⟨i, hi⟩), threshold := none }]
        (gather_attack_variants w) = true := by
  refine ⟨?_, by norm_num [attackRates, List.chain'_cons], ?_,
    fun i hi resI resS hI hS => ?_⟩
  · rw [gather_attack_variants, List.filter_append, List.filter_append,
      rateLoop_filter_rpl, rateLoop_filter_not_rpl]
    cases href : execute_ns3 (w (2 * attackRates.length)) false 700 25 25
        (6/5) 120 with
    | none => simp
    | some res => simp; rfl
  · rw [gather_attack_variants, List.filter_append, rateLoop_filter_rpl]
    cases href : execute_ns3 (w (2 * attackRates.length)) false 700 25 25
        (6/5) 120 with
    | none => exact Or.inl rfl
    | some res => exact Or.inr rfl
  · obtain ⟨X, Y, hXY⟩ := rateLoop_adjacent w attackRates i 0 hi resI resS
      (by simpa using hI) (by simpa using hS)
    rw [gather_attack_variants, hXY]
    simp only [List.append_assoc]
    exact isInfixB_of_eq_append _ X _ _ rfl

/-- Witness for C10: in the all-success world the insecure and secure
records for the first rate, 150, are adjacent in the table. -/
theorem attack_sweep_ordering_witness :
    isInfixB
      [{ scenario := "InsecRPL", result := okResult,
         attack_pps := some (150 : ℤ), threshold := none },
       { scenario := "SecRPL", result := okResult,
         attack_pps := some (150 : ℤ), threshold := none }]
      (gather_attack_variants okWorld) = true :=
  (attack_sweep_ordering okWorld).2.2.2 0 (by decide) okResult okResult
    rfl rfl

end AnalysisScript
